import Mathlib

/-!
Shallow embedding of src/megaavr/VarSpeedServo.cpp (VarSpeedServo-megaavr).

The translation unit's global mutable data (the static servo table, the
attached-servo count, the per-timer current channel index, the timer B
compare register, the interrupt enable bit and the pin levels) is gathered
in a `State` record; the per-object fields of class VarSpeedServo are in an
`Instance` record.  C machine integers are modelled as `Int`/`Nat` with the
relevant wraps written explicitly: stores into `uint16_t` take `% 2^16`
(`Int.emod 65536`), stores into `int8_t` go through `toInt8`, and C signed
division is `Int.tdiv` (truncation toward zero).  The servo table is indexed
by `Int` and sequence arrays by `Nat`, total functions, so that the source's
out-of-bounds accesses are well defined in the model; the declared table is
the index range `[0, MAX_SERVOS)`.
-/

namespace VarSpeedServoModel

/-- Modelled from the spec: the platform clock parameter of the tick/microsecond
conversion collaborator (spec section 6); the megaavr reference target runs 16
clock cycles per microsecond.  The conversion macros themselves are in the
source; only this platform constant is external to src. -/
def clockCyclesPerMicrosecond : Int := 16

/-- Modelled from the spec: default minimum valid pulse width, 544 microseconds
(header constant MIN_PULSE_WIDTH, not under src; value fixed by spec section 6). -/
def MIN_PULSE_WIDTH : Int := 544

/-- Modelled from the spec: default maximum pulse width, 2400 microseconds
(header constant MAX_PULSE_WIDTH, not under src; value fixed by spec section 6). -/
def MAX_PULSE_WIDTH : Int := 2400

/-- Modelled from the spec: pulse width stored at construction (header constant
DEFAULT_PULSE_WIDTH, not under src; the standard Arduino servo default). -/
def DEFAULT_PULSE_WIDTH : Int := 1500

/-- Refresh interval in microseconds; the source redefines it to 16000. -/
def REFRESH_INTERVAL : Int := 16000

/-- Compensation ticks to trim adjust for digitalWrite delays (source TRIM_DURATION). -/
def TRIM_DURATION : Int := 5

/-- Modelled from the spec: channels per timer (header constant SERVOS_PER_TIMER,
not under src; the source comments fix groups of 12 servos per timer). -/
def SERVOS_PER_TIMER : Nat := 12

/-- Modelled from the spec: number of 16 bit timers seized on the megaavr target
(header constant, not under src); the source ISR drives the single timer 0. -/
def Nbr_16timers : Nat := 1

/-- Modelled from the spec: fixed servo capacity, timers times channels per
timer (header constant MAX_SERVOS, not under src). -/
def MAX_SERVOS : Nat := Nbr_16timers * SERVOS_PER_TIMER

/-- Modelled from the spec: sentinel servo index issued when construction
exceeds capacity (header constant INVALID_SERVO, not under src; value 255). -/
def INVALID_SERVO : Nat := 255

/-- Modelled from the spec: sentinel waypoint index meaning sequence playback
has stopped (header constant CURRENT_SEQUENCE_STOP, not under src; value 255). -/
def CURRENT_SEQUENCE_STOP : Nat := 255

/-- Result of storing an integer into an int8_t variable. -/
def toInt8 (x : Int) : Int := (x + 128) % 256 - 128

/-- The Arduino map function, C integer arithmetic: linear interpolation with
division truncating toward zero. -/
def map (x inLo inHi outLo outHi : Int) : Int :=
  Int.tdiv ((x - inLo) * (outHi - outLo)) (inHi - inLo) + outLo

/-- The Arduino constrain macro. -/
def constrain (x lo hi : Int) : Int :=
  if x < lo then lo else if x > hi then hi else x

/-- Source macro usToTicks: converts microseconds to timer ticks. -/
def usToTicks (us : Int) : Int :=
  Int.tdiv (Int.tdiv clockCyclesPerMicrosecond 16 * us) 4

/-- Source macro ticksToUs: converts ticks back to microseconds.  The cast of
the tick count to unsigned int makes the multiplication wrap at 2^16. -/
def ticksToUs (ticks : Int) : Int :=
  Int.tdiv ((ticks.emod 65536 * 16).emod 65536) (Int.tdiv clockCyclesPerMicrosecond 4)

/-- Pin data of a servo record (source struct ServoPin_t: pin number and the
active flag). -/
structure ServoPin where
  nbr : Int
  isActive : Bool
deriving DecidableEq

/-- One record of the static servo table (source struct servo_t): pin data, the
current pulse width in ticks (uint16), the last raw value passed to a write
entry point (int), the ramp target in ticks (uint16) and the ramp speed (uint8). -/
structure servo_t where
  Pin : ServoPin
  ticks : Int
  value : Int
  target : Int
  speed : Nat
deriving DecidableEq

/-- Observable timer lifecycle calls (initISR and finISR), logged so that the
exact occurrences of interrupt setup and teardown are visible to theorems. -/
inductive TimerEvent where
  | init (timer : Nat)
  | fin (timer : Nat)
deriving DecidableEq

/-- Pointwise update of a total function, modelling an array or register store. -/
def upd {α β : Type} [DecidableEq α] (f : α → β) (i : α) (v : β) : α → β :=
  fun j => if j = i then v else f j

/-- The global mutable state of the translation unit. -/
@[ext] structure State where
  servos : Int → servo_t
  ServoCount : Nat
  currentServoIndex : Nat → Int
  CCMP : Int
  INTCTRL : Bool
  pinLevel : Int → Bool
  events : List TimerEvent

/-- The per object fields of class VarSpeedServo used by the modelled methods.
The current sequence pointer is modelled by an identity tag, matching the
source's pointer identity comparison. -/
structure Instance where
  servoIndex : Nat
  min : Int
  max : Int
  curSeqPosition : Nat
  curSequenceId : Nat
deriving DecidableEq

/-- Source macro SERVO_INDEX, in the int arithmetic of the C expression. -/
def SERVO_INDEX (timer : Nat) (channel : Int) : Int :=
  (timer : Int) * (SERVOS_PER_TIMER : Int) + channel

/-- Source macro SERVO_MIN: minimum value in microseconds for this servo. -/
def SERVO_MIN (inst : Instance) : Int := MIN_PULSE_WIDTH - inst.min * 4

/-- Source macro SERVO_MAX: maximum value in microseconds for this servo. -/
def SERVO_MAX (inst : Instance) : Int := MAX_PULSE_WIDTH - inst.max * 4

/-- Identity tag of the global initSeq array the constructor points curSequence at. -/
def initSeqId : Nat := 0

/-- Source initISR: enables the timer interrupt (the timer register writes are
abstracted to the enable bit) and logs the call. -/
def initISR (s : State) (timer : Nat) : State :=
  { s with INTCTRL := true, events := s.events ++ [TimerEvent.init timer] }

/-- Source finISR: disables the timer interrupt and logs the call. -/
def finISR (s : State) (timer : Nat) : State :=
  { s with INTCTRL := false, events := s.events ++ [TimerEvent.fin timer] }

/-- Source isTimerActive: true if any servo is active on this timer. -/
def isTimerActive (s : State) (timer : Nat) : Bool :=
  (List.range SERVOS_PER_TIMER).any fun channel =>
    (s.servos (SERVO_INDEX timer (channel : Int))).Pin.isActive

/-- The VarSpeedServo constructor.  Fields the source leaves unassigned keep the
indeterminate values of the pre-construction object, passed in as uninit. -/
def construct (s : State) (uninit : Instance) : State × Instance :=
  if s.ServoCount < MAX_SERVOS then
    let idx := s.ServoCount
    let sv := s.servos (idx : Int)
    let svNew := { sv with ticks := (usToTicks DEFAULT_PULSE_WIDTH).emod 65536 }
    ({ s with ServoCount := (s.ServoCount + 1) % 256, servos := upd s.servos (idx : Int) svNew },
     { uninit with servoIndex := idx, curSeqPosition := 0, curSequenceId := initSeqId })
  else
    (s, { uninit with servoIndex := INVALID_SERVO })

/-- VarSpeedServo attach with explicit min and max.  The pinMode call is not
modelled (pin direction is outside every claim).  The order of effects follows
the source: store the pin number, set the trims, scan the timer, initialize it
if idle, and only then set the active flag. -/
def attach (s : State) (inst : Instance) (pin mn mx : Int) : State × Instance :=
  if inst.servoIndex < MAX_SERVOS then
    let sv := s.servos (inst.servoIndex : Int)
    let svNew := { sv with Pin := { sv.Pin with nbr := pin } }
    let s1 := { s with servos := upd s.servos (inst.servoIndex : Int) svNew }
    let inst1 := { inst with
                    min := toInt8 (Int.tdiv (MIN_PULSE_WIDTH - mn) 4),
                    max := toInt8 (Int.tdiv (MAX_PULSE_WIDTH - mx) 4) }
    let timer := inst.servoIndex / SERVOS_PER_TIMER
    let s2 := if isTimerActive s1 timer = false then initISR s1 timer else s1
    let sv2 := s2.servos (inst.servoIndex : Int)
    let sv2New := { sv2 with Pin := { sv2.Pin with isActive := true } }
    let s3 := { s2 with servos := upd s2.servos (inst.servoIndex : Int) sv2New }
    (s3, inst1)
  else (s, inst)

/-- VarSpeedServo detach: clear the active flag, then tear the timer down if no
channel on it remains active. -/
def detach (s : State) (inst : Instance) : State :=
  let sv := s.servos (inst.servoIndex : Int)
  let svNew := { sv with Pin := { sv.Pin with isActive := false } }
  let s1 := { s with servos := upd s.servos (inst.servoIndex : Int) svNew }
  let timer := inst.servoIndex / SERVOS_PER_TIMER
  if isTimerActive s1 timer = false then finISR s1 timer else s1

/-- VarSpeedServo writeMicroseconds.  The store of the raw value into the value
field happens before the channel validity check, as in the source; the ticks
store goes through the uint16 cast. -/
def writeMicroseconds (s : State) (inst : Instance) (value : Int) : State :=
  let channel : Nat := inst.servoIndex
  let sv := s.servos (channel : Int)
  let s1 := { s with servos := upd s.servos (channel : Int) { sv with value := value } }
  if channel < MAX_SERVOS then
    let v1 := constrain value (SERVO_MIN inst) (SERVO_MAX inst)
    let v2 := v1 - TRIM_DURATION
    let v3 := usToTicks v2
    let sv1 := s1.servos (channel : Int)
    { s1 with servos := upd s1.servos (channel : Int) { sv1 with ticks := v3.emod 65536 } }
  else s1

/-- VarSpeedServo write(value): values below MIN_PULSE_WIDTH are clamped to
[0,180] and mapped onto the calibrated range, then writeMicroseconds runs. -/
def write (s : State) (inst : Instance) (value : Int) : State :=
  let v := if value < MIN_PULSE_WIDTH then
             let c := if value < 0 then 0 else if value > 180 then 180 else value
             map c 0 180 (SERVO_MIN inst) (SERVO_MAX inst)
           else value
  writeMicroseconds s inst v

/-- VarSpeedServo write(value, speed): with non-zero speed the clamped and trim
compensated tick value goes to the target field together with the speed; with
zero speed the call degrades to write(value). -/
def writeWithSpeed (s : State) (inst : Instance) (value : Int) (speed : Nat) : State :=
  let channel : Nat := inst.servoIndex
  let sv := s.servos (channel : Int)
  let s1 := { s with servos := upd s.servos (channel : Int) { sv with value := value } }
  if speed ≠ 0 then
    let v1 := if value < MIN_PULSE_WIDTH then
                map (constrain value 0 180) 0 180 (SERVO_MIN inst) (SERVO_MAX inst)
              else value
    if channel < MAX_SERVOS then
      let v2 := constrain v1 (SERVO_MIN inst) (SERVO_MAX inst)
      let v3 := usToTicks (v2 - TRIM_DURATION)
      let sv1 := s1.servos (channel : Int)
      let sv1New := { sv1 with target := v3.emod 65536, speed := speed }
      { s1 with servos := upd s1.servos (channel : Int) sv1New }
    else s1
  else
    write s1 inst value

/-- VarSpeedServo readMicroseconds.  The local pulsewidth variable is an
unsigned int; ticksToUs stays far below 2^15, so returning it as int is the
identity and needs no further cast. -/
def readMicroseconds (s : State) (inst : Instance) : Int :=
  if inst.servoIndex ≠ INVALID_SERVO then
    (ticksToUs (s.servos (inst.servoIndex : Int)).ticks + TRIM_DURATION).emod 65536
  else 0

/-- VarSpeedServo read: the reported position in degrees. -/
def read (s : State) (inst : Instance) : Int :=
  map (readMicroseconds s inst + 1) (SERVO_MIN inst) (SERVO_MAX inst) 0 180

/-- The advanced channel index the interrupt handler computes: the int8
increment of the current channel of this timer. -/
def advancedIndex (s : State) (timer : Nat) : Int :=
  toInt8 (s.currentServoIndex timer + 1)

/-- The handler's all-channels-exhausted condition: the advanced channel index
is not below both the registered servo count and the per-timer capacity. -/
def channelsExhausted (s : State) (timer : Nat) : Prop :=
  ¬ (SERVO_INDEX timer (advancedIndex s timer) < (s.ServoCount : Int) ∧
     advancedIndex s timer < (SERVOS_PER_TIMER : Int))

/-- Counter value the handler reads in its refresh branch: the sentinel branch
has just zeroed the compare register, otherwise the register still holds the
cumulative tick count of the cycle. -/
def elapsedTicks (s : State) (timer : Nat) : Int :=
  if s.currentServoIndex timer < 0 then 0 else s.CCMP

/-- First statement block of ServoHandler: on the sentinel, zero the compare
register (this interrupt opens a new cycle); otherwise drive the just-finished
channel's pin low when it is registered and active. -/
def handlerPulseEnd (s : State) (timer : Nat) : State :=
  let cur := s.currentServoIndex timer
  if cur < 0 then { s with CCMP := 0 }
  else if SERVO_INDEX timer cur < (s.ServoCount : Int) ∧
          (s.servos (SERVO_INDEX timer cur)).Pin.isActive = true then
    { s with pinLevel := upd s.pinLevel (s.servos (SERVO_INDEX timer cur)).Pin.nbr false }
  else s

/-- Then-arm of ServoHandler: pulse the next channel high when it is active and
arm the trigger for its tick count (from counter value 0, as a uint16 store). -/
def handlerNextChannel (s2 : State) (timer : Nat) (cur2 : Int) : State :=
  let sv := s2.servos (SERVO_INDEX timer cur2)
  let s3 := if sv.Pin.isActive = true
            then { s2 with pinLevel := upd s2.pinLevel sv.Pin.nbr true }
            else s2
  { s3 with CCMP := (0 + sv.ticks).emod 65536 }

/-- Else-arm of ServoHandler: all channels done, arm the trigger for the
refresh interval or for now plus the guard margin, and reset the current
channel to the sentinel. -/
def handlerRefresh (s2 : State) (timer : Nat) : State :=
  let tc := s2.CCMP
  let s4 := if tc + 4 < usToTicks REFRESH_INTERVAL
            then { s2 with CCMP := (usToTicks REFRESH_INTERVAL).emod 65536 }
            else { s2 with CCMP := (tc + 4).emod 65536 }
  { s4 with currentServoIndex := upd s4.currentServoIndex timer (-1) }

/-- Source ServoHandler: the per-interrupt pulse scheduler step for one timer,
as the sequence of its statement blocks.  The interrupt flag acknowledgement
touches no modelled state and is omitted. -/
def ServoHandler (s : State) (timer : Nat) : State :=
  let s1 := handlerPulseEnd s timer
  let cur2 := toInt8 (s.currentServoIndex timer + 1)
  let s2 := { s1 with currentServoIndex := upd s1.currentServoIndex timer cur2 }
  if SERVO_INDEX timer cur2 < (s2.ServoCount : Int) ∧ cur2 < (SERVOS_PER_TIMER : Int) then
    handlerNextChannel s2 timer cur2
  else
    handlerRefresh s2 timer

/-- Modelled from the spec: one waypoint of a sequence, a position and a speed
(header struct servoSequencePoint with uint8 fields, not under src). -/
structure servoSequencePoint where
  position : Nat
  speed : Nat
deriving DecidableEq

/-- Result of a sequencePlay call: updated globals, updated object, the returned
index, and the trace of waypoint indices at which the sequence array was read. -/
structure SeqResult where
  state : State
  inst : Instance
  ret : Nat
  reads : List Nat

/-- VarSpeedServo sequencePlay.  The sequence pointer argument is modelled as an
identity tag plus the pointed-to waypoint memory (total over Nat, so the reads
trace makes out-of-bounds accesses observable).  The advance condition reads
the waypoint at the current index before testing the stop sentinel, exactly as
the source's left-to-right && does. -/
def sequencePlay (s : State) (inst : Instance) (seqId : Nat)
    (sequenceIn : Nat → servoSequencePoint) (numPositions : Nat)
    (loop : Bool) (startPos : Nat) : SeqResult :=
  let inst1 := if inst.curSequenceId ≠ seqId
               then { inst with curSequenceId := seqId, curSeqPosition := startPos }
               else inst
  let old := if inst.curSequenceId ≠ seqId then 255 else inst.curSeqPosition
  let p := inst1.curSeqPosition
  let cond := read s inst1 = ((sequenceIn p).position : Int) ∧ p ≠ CURRENT_SEQUENCE_STOP
  let p2 := if cond then
              let q := (p + 1) % 256
              if numPositions ≤ q then (if loop then 0 else CURRENT_SEQUENCE_STOP) else q
            else p
  let inst2 := { inst1 with curSeqPosition := p2 }
  if p2 ≠ old ∧ p2 ≠ CURRENT_SEQUENCE_STOP then
    { state := writeWithSpeed s inst2 ((sequenceIn p2).position : Int) (sequenceIn p2).speed,
      inst := inst2, ret := p2, reads := [p] ++ [p2] }
  else
    { state := s, inst := inst2, ret := p2, reads := [p] }

/-- A quiescent servo record used to build concrete states: inactive pin 0,
default pulse ticks, zero value, target and speed. -/
def baseServo : servo_t :=
  { Pin := { nbr := 0, isActive := false }, ticks := 375, value := 0, target := 0, speed := 0 }

/-- A concrete base state: one registered servo, every record quiescent, the
scheduler idle at the sentinel, no events. -/
def baseState : State :=
  { servos := fun _ => baseServo, ServoCount := 1, currentServoIndex := fun _ => -1,
    CCMP := 0, INTCTRL := false, pinLevel := fun _ => false, events := [] }

/-- A concrete instance: servo 0 with default calibration, fresh sequence data. -/
def baseInst : Instance :=
  { servoIndex := 0, min := 0, max := 0, curSeqPosition := 0, curSequenceId := initSeqId }

/-- A concrete two-waypoint sequence shaped like the source's initSeq. -/
def seq0 : Nat → servoSequencePoint :=
  fun i => if i = 0 then { position := 0, speed := 100 } else { position := 45, speed := 100 }


/-! ## Helper lemmas -/

theorem upd_self {α β : Type} [DecidableEq α] (f : α → β) (i : α) (v : β) :
    upd f i v i = v := by
  simp [upd]

theorem upd_other {α β : Type} [DecidableEq α] (f : α → β) (i j : α) (v : β) (h : j ≠ i) :
    upd f i v j = f j := by
  simp [upd, h]

theorem usToTicks_eq_tdiv (us : Int) : usToTicks us = Int.tdiv us 4 := by
  have h1 : Int.tdiv clockCyclesPerMicrosecond 16 = 1 := by decide
  rw [usToTicks, h1, one_mul]

theorem usToTicks_nonneg_eq {us : Int} (h : 0 ≤ us) : usToTicks us = us / 4 := by
  rw [usToTicks_eq_tdiv]
  exact Int.tdiv_eq_ediv h (by norm_num)

theorem writeMicroseconds_servos_self (s : State) (inst : Instance) (value : Int)
    (hidx : inst.servoIndex < MAX_SERVOS) :
    (writeMicroseconds s inst value).servos (inst.servoIndex : Int) =
      { s.servos (inst.servoIndex : Int) with
          value := value,
          ticks := (usToTicks (constrain value (SERVO_MIN inst) (SERVO_MAX inst)
                      - TRIM_DURATION)).emod 65536 } := by
  simp only [writeMicroseconds]
  rw [if_pos hidx]
  simp [upd]

/-! ## C1: write(value) immediate semantics -/

/-- C1: for an attached servo with int8-range calibration trims, write(value)
interprets values below the minimum valid pulse width (544) as angles clamped
to [0,180] and linearly mapped onto the calibrated microsecond range, takes
values at or above 544 directly as microseconds, clamps the result to the
calibrated range, subtracts the fixed trim compensation of 5, converts to
ticks, and stores the result immediately in the servo record's ticks field. -/
theorem write_sets_ticks_from_clamped_trimmed_value
    (s : State) (inst : Instance) (v : Int)
    (hidx : inst.servoIndex < MAX_SERVOS)
    (hm1 : -128 ≤ inst.min) (hm2 : inst.min ≤ 127)
    (hx1 : -128 ≤ inst.max) (hx2 : inst.max ≤ 127) :
    ((write s inst v).servos (inst.servoIndex : Int)).ticks =
      usToTicks (constrain (if v < MIN_PULSE_WIDTH
                            then map (constrain v 0 180) 0 180 (SERVO_MIN inst) (SERVO_MAX inst)
                            else v)
                 (SERVO_MIN inst) (SERVO_MAX inst) - TRIM_DURATION) := by
  have hn1 : 36 ≤ SERVO_MIN inst := by unfold SERVO_MIN MIN_PULSE_WIDTH; omega
  have hn2 : SERVO_MIN inst ≤ 1056 := by unfold SERVO_MIN MIN_PULSE_WIDTH; omega
  have hX1 : 1892 ≤ SERVO_MAX inst := by unfold SERVO_MAX MAX_PULSE_WIDTH; omega
  have hX2 : SERVO_MAX inst ≤ 2912 := by unfold SERVO_MAX MAX_PULSE_WIDTH; omega
  set M := (if v < MIN_PULSE_WIDTH
            then map (constrain v 0 180) 0 180 (SERVO_MIN inst) (SERVO_MAX inst)
            else v) with hM
  have hw1 : 36 ≤ constrain M (SERVO_MIN inst) (SERVO_MAX inst) := by
    unfold constrain; split_ifs <;> omega
  have hw2 : constrain M (SERVO_MIN inst) (SERVO_MAX inst) ≤ 2912 := by
    unfold constrain; split_ifs <;> omega
  have hy : usToTicks (constrain M (SERVO_MIN inst) (SERVO_MAX inst) - TRIM_DURATION)
      = (constrain M (SERVO_MIN inst) (SERVO_MAX inst) - TRIM_DURATION) / 4 :=
    usToTicks_nonneg_eq (by unfold TRIM_DURATION; omega)
  have hred : (write s inst v).servos (inst.servoIndex : Int)
      = { s.servos (inst.servoIndex : Int) with
            value := M,
            ticks := (usToTicks (constrain M (SERVO_MIN inst) (SERVO_MAX inst)
                        - TRIM_DURATION)).emod 65536 } := by
    show (writeMicroseconds s inst M).servos (inst.servoIndex : Int) = _
    exact writeMicroseconds_servos_self s inst M hidx
  rw [hred]
  show (usToTicks (constrain M (SERVO_MIN inst) (SERVO_MAX inst) - TRIM_DURATION)).emod 65536 = _
  rw [hy]
  apply Int.emod_eq_of_lt
  · unfold TRIM_DURATION; omega
  · unfold TRIM_DURATION; omega

/-- Witness for C1 at servo 0, default calibration, angle 90. -/
theorem write_sets_ticks_witness :
    ((write baseState baseInst 90).servos ((baseInst.servoIndex : Nat) : Int)).ticks =
      usToTicks (constrain (if (90 : Int) < MIN_PULSE_WIDTH
                            then map (constrain 90 0 180) 0 180 (SERVO_MIN baseInst) (SERVO_MAX baseInst)
                            else 90)
                 (SERVO_MIN baseInst) (SERVO_MAX baseInst) - TRIM_DURATION) :=
  write_sets_ticks_from_clamped_trimmed_value baseState baseInst 90
    (by decide) (by decide) (by decide) (by decide) (by decide)


/-! ## C3: write(value, speed) -/

theorem clamped_ticks_emod_eq (inst : Instance) (M : Int)
    (hm1 : -128 ≤ inst.min) (hm2 : inst.min ≤ 127)
    (hx1 : -128 ≤ inst.max) (hx2 : inst.max ≤ 127) :
    (usToTicks (constrain M (SERVO_MIN inst) (SERVO_MAX inst) - TRIM_DURATION)).emod 65536
      = usToTicks (constrain M (SERVO_MIN inst) (SERVO_MAX inst) - TRIM_DURATION) := by
  have hn1 : 36 ≤ SERVO_MIN inst := by unfold SERVO_MIN MIN_PULSE_WIDTH; omega
  have hn2 : SERVO_MIN inst ≤ 1056 := by unfold SERVO_MIN MIN_PULSE_WIDTH; omega
  have hX1 : 1892 ≤ SERVO_MAX inst := by unfold SERVO_MAX MAX_PULSE_WIDTH; omega
  have hX2 : SERVO_MAX inst ≤ 2912 := by unfold SERVO_MAX MAX_PULSE_WIDTH; omega
  have hw1 : 36 ≤ constrain M (SERVO_MIN inst) (SERVO_MAX inst) := by
    unfold constrain; split_ifs <;> omega
  have hw2 : constrain M (SERVO_MIN inst) (SERVO_MAX inst) ≤ 2912 := by
    unfold constrain; split_ifs <;> omega
  have hy : usToTicks (constrain M (SERVO_MIN inst) (SERVO_MAX inst) - TRIM_DURATION)
      = (constrain M (SERVO_MIN inst) (SERVO_MAX inst) - TRIM_DURATION) / 4 :=
    usToTicks_nonneg_eq (by unfold TRIM_DURATION; omega)
  rw [hy]
  apply Int.emod_eq_of_lt
  · unfold TRIM_DURATION; omega
  · unfold TRIM_DURATION; omega

theorem writeMicroseconds_value_overwrite (s : State) (inst : Instance) (m raw : Int) :
    writeMicroseconds
      { s with servos := upd s.servos (inst.servoIndex : Int) ({ s.servos (inst.servoIndex : Int) with value := raw }) }
      inst m = writeMicroseconds s inst m := by
  unfold writeMicroseconds
  by_cases h : inst.servoIndex < MAX_SERVOS
  · simp only [h, if_true]
    congr 1
    funext j
    by_cases hj : j = ((inst.servoIndex : Nat) : Int) <;> simp [upd, hj]
  · simp only [h, if_false]
    congr 1
    funext j
    by_cases hj : j = ((inst.servoIndex : Nat) : Int) <;> simp [upd, hj]

theorem writeWithSpeed_servos_self (s : State) (inst : Instance) (v : Int) (sp : Nat)
    (hsp : sp ≠ 0) (hidx : inst.servoIndex < MAX_SERVOS) :
    (writeWithSpeed s inst v sp).servos (inst.servoIndex : Int) =
      { s.servos (inst.servoIndex : Int) with
          value := v,
          target := (usToTicks (constrain
              (if v < MIN_PULSE_WIDTH
               then map (constrain v 0 180) 0 180 (SERVO_MIN inst) (SERVO_MAX inst)
               else v) (SERVO_MIN inst) (SERVO_MAX inst) - TRIM_DURATION)).emod 65536,
          speed := sp } := by
  simp only [writeWithSpeed, hsp, ne_eq, not_false_eq_true, if_true, hidx]
  simp [upd]

/-- C3: for a servo with a valid index and int8-range trims, write(value, speed)
with non-zero speed stores the clamped, trim-compensated tick result in the
record's target field together with the speed, leaves every record's ticks
field unchanged, and write(value, 0) produces exactly the same state as
write(value). -/
theorem writeWithSpeed_target_and_degrade
    (s : State) (inst : Instance) (v : Int) (sp : Nat)
    (hidx : inst.servoIndex < MAX_SERVOS)
    (hm1 : -128 ≤ inst.min) (hm2 : inst.min ≤ 127)
    (hx1 : -128 ≤ inst.max) (hx2 : inst.max ≤ 127)
    (hsp : sp ≠ 0) :
    ((writeWithSpeed s inst v sp).servos (inst.servoIndex : Int)).target =
      usToTicks (constrain (if v < MIN_PULSE_WIDTH
                            then map (constrain v 0 180) 0 180 (SERVO_MIN inst) (SERVO_MAX inst)
                            else v)
                 (SERVO_MIN inst) (SERVO_MAX inst) - TRIM_DURATION) ∧
    ((writeWithSpeed s inst v sp).servos (inst.servoIndex : Int)).speed = sp ∧
    (∀ i : Int, ((writeWithSpeed s inst v sp).servos i).ticks = (s.servos i).ticks) ∧
    (∀ v0 : Int, writeWithSpeed s inst v0 0 = write s inst v0) := by
  refine ⟨?_, ?_, ?_, ?_⟩
  · rw [writeWithSpeed_servos_self s inst v sp hsp hidx]
    exact clamped_ticks_emod_eq inst _ hm1 hm2 hx1 hx2
  · rw [writeWithSpeed_servos_self s inst v sp hsp hidx]
  · intro i
    by_cases hj : i = ((inst.servoIndex : Nat) : Int)
    · rw [hj, writeWithSpeed_servos_self s inst v sp hsp hidx]
    · simp only [writeWithSpeed, hsp, ne_eq, not_false_eq_true, if_true, hidx]
      simp [upd, hj]
  · intro v0
    show write
      { s with servos := upd s.servos (inst.servoIndex : Int) ({ s.servos (inst.servoIndex : Int) with value := v0 }) }
      inst v0 = write s inst v0
    show writeMicroseconds
      { s with servos := upd s.servos (inst.servoIndex : Int) ({ s.servos (inst.servoIndex : Int) with value := v0 }) }
      inst _ = _
    rw [writeMicroseconds_value_overwrite]
    rfl

/-- Witness for C3 at servo 0, default calibration, value 90, speed 7. -/
theorem writeWithSpeed_target_witness :
    ((writeWithSpeed baseState baseInst 90 7).servos ((baseInst.servoIndex : Nat) : Int)).speed = 7 ∧
    ((writeWithSpeed baseState baseInst 90 7).servos 3).ticks = (baseState.servos 3).ticks ∧
    writeWithSpeed baseState baseInst 33 0 = write baseState baseInst 33 := by
  have h := writeWithSpeed_target_and_degrade baseState baseInst 90 7
    (by decide) (by decide) (by decide) (by decide) (by decide) (by decide)
  exact ⟨h.2.1, h.2.2.1 3, h.2.2.2 33⟩

/-! ## C4: exhausted capacity sentinel -/

/-- C4: an instance constructed after the fixed capacity is exhausted carries
the invalid sentinel index, and on such an instance readMicroseconds reports 0
while write, write-with-speed and writeMicroseconds leave every entry of the
declared servo table unchanged. -/
theorem invalid_servo_operations_are_noops
    (s : State) (uninit inst : Instance)
    (hcap : ¬ s.ServoCount < MAX_SERVOS)
    (hinv : inst.servoIndex = INVALID_SERVO) :
    (construct s uninit).2.servoIndex = INVALID_SERVO ∧
    readMicroseconds s inst = 0 ∧
    (∀ v : Int, ∀ i : Int, 0 ≤ i → i < (MAX_SERVOS : Int) →
       (write s inst v).servos i = s.servos i ∧
       (writeMicroseconds s inst v).servos i = s.servos i) ∧
    (∀ v : Int, ∀ sp : Nat, ∀ i : Int, 0 ≤ i → i < (MAX_SERVOS : Int) →
       (writeWithSpeed s inst v sp).servos i = s.servos i) := by
  have hch : ¬ inst.servoIndex < MAX_SERVOS := by rw [hinv]; decide
  have hidx255 : ((inst.servoIndex : Nat) : Int) = 255 := by rw [hinv]; rfl
  have hmax : ((MAX_SERVOS : Nat) : Int) = 12 := by rfl
  refine ⟨?_, ?_, ?_, ?_⟩
  · simp [construct, hcap]
  · simp [readMicroseconds, hinv]
  · intro v i h0 h1
    rw [hmax] at h1
    have hne : i ≠ ((inst.servoIndex : Nat) : Int) := by rw [hidx255]; omega
    refine ⟨?_, ?_⟩
    · show (writeMicroseconds s inst _).servos i = s.servos i
      simp only [writeMicroseconds, hch, if_false]
      exact upd_other _ _ _ _ hne
    · simp only [writeMicroseconds, hch, if_false]
      exact upd_other _ _ _ _ hne
  · intro v sp i h0 h1
    rw [hmax] at h1
    have hne : i ≠ ((inst.servoIndex : Nat) : Int) := by rw [hidx255]; omega
    by_cases hsp : sp = 0
    · subst hsp
      show (write _ inst v).servos i = s.servos i
      show (writeMicroseconds _ inst _).servos i = s.servos i
      simp only [writeMicroseconds, hch, if_false]
      rw [upd_other _ _ _ _ hne]
      exact upd_other _ _ _ _ hne
    · simp only [writeWithSpeed, hsp, ne_eq, not_false_eq_true, if_true, hch, if_false]
      exact upd_other _ _ _ _ hne

/-- Witness for C4: capacity-full state, sentinel instance, a write at angle 90
leaves record 0 untouched. -/
theorem invalid_servo_witness :
    (construct { baseState with ServoCount := 12 } baseInst).2.servoIndex = INVALID_SERVO ∧
    readMicroseconds { baseState with ServoCount := 12 }
      { baseInst with servoIndex := INVALID_SERVO } = 0 ∧
    (write { baseState with ServoCount := 12 }
      { baseInst with servoIndex := INVALID_SERVO } 90).servos 0
      = ({ baseState with ServoCount := 12 } : State).servos 0 := by
  have h := invalid_servo_operations_are_noops { baseState with ServoCount := 12 } baseInst
    { baseInst with servoIndex := INVALID_SERVO } (by decide) rfl
  exact ⟨h.1, h.2.1, (h.2.2.1 90 0 (by decide) (by decide)).1⟩

/-! ## C8: the value field and the raw argument -/

/-- C8 counterexample: write(30) on the default-calibrated servo 0 stores the
angle-mapped microsecond value (853) in the record's value field, not the
caller's argument 30, so the last-written-value field does not keep the
argument in the caller's original unit for the plain write entry point. -/
theorem write_value_field_not_raw_argument :
    ((write baseState baseInst 30).servos 0).value ≠ 30 := by decide

/-- C8 amended: writeMicroseconds and write(value, speed) with non-zero speed
store the caller's argument unchanged in the record's value field; plain
write(value) stores the value after angle disambiguation, so the argument is
kept exactly when it is at or above MIN_PULSE_WIDTH, and arguments below it are
stored as the mapped microsecond value instead. -/
theorem write_entry_points_value_field
    (s : State) (inst : Instance) (v : Int) :
    (∀ sp : Nat, sp ≠ 0 →
       ((writeWithSpeed s inst v sp).servos (inst.servoIndex : Int)).value = v) ∧
    ((writeMicroseconds s inst v).servos (inst.servoIndex : Int)).value = v ∧
    (MIN_PULSE_WIDTH ≤ v → ((write s inst v).servos (inst.servoIndex : Int)).value = v) ∧
    (v < MIN_PULSE_WIDTH → ((write s inst v).servos (inst.servoIndex : Int)).value
        = map (constrain v 0 180) 0 180 (SERVO_MIN inst) (SERVO_MAX inst)) := by
  have hval : ∀ m : Int, ((writeMicroseconds s inst m).servos (inst.servoIndex : Int)).value = m := by
    intro m
    by_cases h : inst.servoIndex < MAX_SERVOS
    · rw [writeMicroseconds_servos_self s inst m h]
    · simp only [writeMicroseconds, h, if_false]
      rw [upd_self]
  refine ⟨?_, hval v, ?_, ?_⟩
  · intro sp hsp
    by_cases h : inst.servoIndex < MAX_SERVOS
    · rw [writeWithSpeed_servos_self s inst v sp hsp h]
    · simp only [writeWithSpeed, hsp, ne_eq, not_false_eq_true, if_true, h, if_false]
      rw [upd_self]
  · intro hge
    show ((writeMicroseconds s inst _).servos (inst.servoIndex : Int)).value = v
    have hlt : ¬ v < MIN_PULSE_WIDTH := not_lt.mpr hge
    simp only [hlt, if_false]
    exact hval v
  · intro hlt
    show ((writeMicroseconds s inst _).servos (inst.servoIndex : Int)).value = _
    simp only [hlt, if_true]
    exact hval _

/-- Witness for C8 amended: concrete stores at servo 0. -/
theorem write_entry_points_value_witness :
    ((writeWithSpeed baseState baseInst 100 5).servos ((baseInst.servoIndex : Nat) : Int)).value = 100 ∧
    (MIN_PULSE_WIDTH ≤ (600 : Int) →
      ((write baseState baseInst 600).servos ((baseInst.servoIndex : Nat) : Int)).value = 600) := by
  have h1 := write_entry_points_value_field baseState baseInst 100
  have h2 := write_entry_points_value_field baseState baseInst 600
  exact ⟨h1.1 5 (by decide), h2.2.2.1⟩


/-! ## C2 and C9: the interrupt handler -/

theorem handlerPulseEnd_ServoCount (s : State) (timer : Nat) :
    (handlerPulseEnd s timer).ServoCount = s.ServoCount := by
  simp only [handlerPulseEnd]; split_ifs <;> rfl

theorem handlerPulseEnd_currentServoIndex (s : State) (timer : Nat) :
    (handlerPulseEnd s timer).currentServoIndex = s.currentServoIndex := by
  simp only [handlerPulseEnd]; split_ifs <;> rfl

theorem handlerPulseEnd_CCMP (s : State) (timer : Nat) :
    (handlerPulseEnd s timer).CCMP = elapsedTicks s timer := by
  simp only [handlerPulseEnd, elapsedTicks]; split_ifs <;> rfl

theorem handlerNextChannel_currentServoIndex (s2 : State) (timer : Nat) (cur2 : Int) :
    (handlerNextChannel s2 timer cur2).currentServoIndex = s2.currentServoIndex := by
  simp only [handlerNextChannel]; split_ifs <;> rfl

theorem handlerRefresh_currentServoIndex_self (s2 : State) (timer : Nat) :
    (handlerRefresh s2 timer).currentServoIndex timer = -1 := by
  simp only [handlerRefresh]; split_ifs <;> exact upd_self _ _ _

theorem handlerRefresh_currentServoIndex_other (s2 : State) (timer t : Nat) (ht : t ≠ timer) :
    (handlerRefresh s2 timer).currentServoIndex t = s2.currentServoIndex t := by
  simp only [handlerRefresh]; split_ifs <;> exact upd_other _ _ _ _ ht

theorem handlerRefresh_CCMP (s2 : State) (timer : Nat) :
    (handlerRefresh s2 timer).CCMP =
      (if s2.CCMP + 4 < usToTicks REFRESH_INTERVAL
       then (usToTicks REFRESH_INTERVAL).emod 65536
       else (s2.CCMP + 4).emod 65536) := by
  simp only [handlerRefresh]; split_ifs <;> rfl

theorem servoHandler_currentServoIndex_other (s : State) (timer t : Nat) (ht : t ≠ timer) :
    (ServoHandler s timer).currentServoIndex t = s.currentServoIndex t := by
  simp only [ServoHandler]
  split_ifs
  · rw [handlerNextChannel_currentServoIndex]
    dsimp only
    rw [upd_other _ _ _ _ ht, handlerPulseEnd_currentServoIndex]
  · rw [handlerRefresh_currentServoIndex_other _ _ _ ht]
    dsimp only
    rw [upd_other _ _ _ _ ht, handlerPulseEnd_currentServoIndex]

theorem servoHandler_currentServoIndex_cases (s : State) (timer : Nat) :
    ((ServoHandler s timer).currentServoIndex timer = advancedIndex s timer ∧
       advancedIndex s timer < ((SERVOS_PER_TIMER : Nat) : Int)) ∨
    (ServoHandler s timer).currentServoIndex timer = -1 := by
  simp only [ServoHandler]
  split_ifs with hc
  · left
    refine ⟨?_, hc.2⟩
    rw [handlerNextChannel_currentServoIndex]
    dsimp only
    exact upd_self _ _ _
  · right
    exact handlerRefresh_currentServoIndex_self _ _

/-- C2: when the handler finds all channels of a timer exhausted (the advanced
channel index is not below both the registered servo count and the per-timer
capacity), it compares the elapsed ticks of the cycle plus the 4-tick guard
margin against usToTicks(16000): below it, the trigger is armed at exactly the
refresh interval, otherwise at the elapsed value plus the margin (as a uint16
store); and in both cases the current channel index is reset to the sentinel
-1 so the next interrupt starts a new cycle. -/
theorem servoHandler_refresh_arming (s : State) (timer : Nat)
    (h : channelsExhausted s timer) :
    (ServoHandler s timer).currentServoIndex timer = -1 ∧
    (ServoHandler s timer).CCMP =
      (if elapsedTicks s timer + 4 < usToTicks REFRESH_INTERVAL
       then usToTicks REFRESH_INTERVAL
       else (elapsedTicks s timer + 4).emod 65536) := by
  have hmod : (usToTicks REFRESH_INTERVAL).emod 65536 = usToTicks REFRESH_INTERVAL := by decide
  unfold channelsExhausted advancedIndex at h
  simp only [ServoHandler, handlerPulseEnd_ServoCount]
  rw [if_neg h]
  constructor
  · exact handlerRefresh_currentServoIndex_self _ _
  · rw [handlerRefresh_CCMP]
    dsimp only
    rw [handlerPulseEnd_CCMP, hmod]

/-- Witness for C2: servo count 12, current channel 11, elapsed 100 ticks. -/
theorem servoHandler_refresh_witness :
    (ServoHandler { baseState with currentServoIndex := fun _ => 11, ServoCount := 12, CCMP := 100 } 0).currentServoIndex 0 = -1 ∧
    (ServoHandler { baseState with currentServoIndex := fun _ => 11, ServoCount := 12, CCMP := 100 } 0).CCMP =
      (if elapsedTicks { baseState with currentServoIndex := fun _ => 11, ServoCount := 12, CCMP := 100 } 0 + 4 < usToTicks REFRESH_INTERVAL
       then usToTicks REFRESH_INTERVAL
       else (elapsedTicks { baseState with currentServoIndex := fun _ => 11, ServoCount := 12, CCMP := 100 } 0 + 4).emod 65536) :=
  servoHandler_refresh_arming
    { baseState with currentServoIndex := fun _ => 11, ServoCount := 12, CCMP := 100 } 0
    (by unfold channelsExhausted advancedIndex; decide)

/-- C9: when the current channel index of a timer is either the sentinel -1 or
a valid channel index below SERVOS_PER_TIMER, it is so again after any handler
invocation on any timer, and the sentinel is negative hence distinct from every
valid channel index. -/
theorem servoHandler_channel_index_invariant (s : State) (timer t : Nat)
    (h : s.currentServoIndex t = -1 ∨
         (0 ≤ s.currentServoIndex t ∧
          s.currentServoIndex t < ((SERVOS_PER_TIMER : Nat) : Int))) :
    ((ServoHandler s timer).currentServoIndex t = -1 ∨
     (0 ≤ (ServoHandler s timer).currentServoIndex t ∧
      (ServoHandler s timer).currentServoIndex t < ((SERVOS_PER_TIMER : Nat) : Int))) ∧
    ((-1 : Int) < 0) := by
  refine ⟨?_, by norm_num⟩
  by_cases ht : t = timer
  · subst ht
    rcases servoHandler_currentServoIndex_cases s t with ⟨heq, hlt⟩ | heq
    · right
      rw [heq]
      refine ⟨?_, hlt⟩
      have h12 : ((SERVOS_PER_TIMER : Nat) : Int) = 12 := by decide
      rw [h12] at h
      unfold advancedIndex toInt8 at hlt ⊢
      rcases h with h | ⟨ha, hb⟩ <;> omega
    · left; exact heq
  · rw [servoHandler_currentServoIndex_other s timer t ht]
    exact h

/-- Witness for C9: a handler step from channel 5. -/
theorem servoHandler_invariant_witness :
    ((ServoHandler { baseState with currentServoIndex := fun _ => 5, ServoCount := 12 } 0).currentServoIndex 0 = -1 ∨
     (0 ≤ (ServoHandler { baseState with currentServoIndex := fun _ => 5, ServoCount := 12 } 0).currentServoIndex 0 ∧
      (ServoHandler { baseState with currentServoIndex := fun _ => 5, ServoCount := 12 } 0).currentServoIndex 0 < ((SERVOS_PER_TIMER : Nat) : Int))) ∧
    ((-1 : Int) < 0) :=
  servoHandler_channel_index_invariant
    { baseState with currentServoIndex := fun _ => 5, ServoCount := 12 } 0 0
    (Or.inr (by constructor <;> decide))

/-! ## C7: attach and detach timer lifecycle -/

theorem list_any_congr {α : Type} {p q : α → Bool} :
    ∀ l : List α, (∀ x ∈ l, p x = q x) → l.any p = l.any q
  | [], _ => rfl
  | a :: l, h => by
    simp only [List.any_cons]
    rw [h a (List.mem_cons_self a l), list_any_congr l (fun x hx => h x (List.mem_cons_of_mem a hx))]

theorem isTimerActive_eq_false_iff (s : State) (timer : Nat) :
    isTimerActive s timer = false ↔
      (∀ ch : Nat, ch < SERVOS_PER_TIMER →
        (s.servos (SERVO_INDEX timer (ch : Int))).Pin.isActive = false) := by
  unfold isTimerActive
  constructor
  · intro h ch hch
    cases hb : (s.servos (SERVO_INDEX timer (ch : Int))).Pin.isActive
    · rfl
    · exfalso
      have htrue : ((List.range SERVOS_PER_TIMER).any fun channel =>
          (s.servos (SERVO_INDEX timer (channel : Int))).Pin.isActive) = true :=
        List.any_eq_true.mpr ⟨ch, List.mem_range.mpr hch, hb⟩
      rw [htrue] at h
      cases h
  · intro h
    cases hb : (List.range SERVOS_PER_TIMER).any fun channel =>
        (s.servos (SERVO_INDEX timer (channel : Int))).Pin.isActive
    · rfl
    · exfalso
      obtain ⟨ch, hmem, hact⟩ := List.any_eq_true.mp hb
      rw [h ch (List.mem_range.mp hmem)] at hact
      cases hact

theorem isTimerActive_congr (s1 s2 : State) (timer : Nat)
    (h : ∀ ch : Nat, ch < SERVOS_PER_TIMER →
      (s1.servos (SERVO_INDEX timer (ch : Int))).Pin.isActive
        = (s2.servos (SERVO_INDEX timer (ch : Int))).Pin.isActive) :
    isTimerActive s1 timer = isTimerActive s2 timer := by
  unfold isTimerActive
  exact list_any_congr _ fun ch hch => h ch (List.mem_range.mp hch)

theorem attach_events_and_flag (s : State) (inst : Instance) (pin mn mx : Int)
    (hidx : inst.servoIndex < MAX_SERVOS) :
    ((attach s inst pin mn mx).1.servos (inst.servoIndex : Int)).Pin.isActive = true ∧
    (attach s inst pin mn mx).1.events =
      (if isTimerActive s (inst.servoIndex / SERVOS_PER_TIMER) = false
       then s.events ++ [TimerEvent.init (inst.servoIndex / SERVOS_PER_TIMER)]
       else s.events) := by
  have hcongr : isTimerActive
      { s with servos := upd s.servos (inst.servoIndex : Int) ({ s.servos (inst.servoIndex : Int) with Pin := { (s.servos (inst.servoIndex : Int)).Pin with nbr := pin } }) }
      (inst.servoIndex / SERVOS_PER_TIMER)
      = isTimerActive s (inst.servoIndex / SERVOS_PER_TIMER) := by
    apply isTimerActive_congr
    intro ch hch
    by_cases hj : SERVO_INDEX (inst.servoIndex / SERVOS_PER_TIMER) (ch : Int)
        = ((inst.servoIndex : Nat) : Int)
    · dsimp only
      rw [hj, upd_self]
    · dsimp only
      rw [upd_other _ _ _ _ hj]
  simp only [attach, hidx, if_true, initISR]
  rw [hcongr]
  split_ifs with hb <;> constructor <;> first | rfl | (rw [upd_self])

theorem detach_events_and_servos (s : State) (inst : Instance) :
    (detach s inst).servos
      = upd s.servos (inst.servoIndex : Int) ({ s.servos (inst.servoIndex : Int) with Pin := { (s.servos (inst.servoIndex : Int)).Pin with isActive := false } }) ∧
    (detach s inst).events =
      (if isTimerActive { s with servos := upd s.servos (inst.servoIndex : Int) ({ s.servos (inst.servoIndex : Int) with Pin := { (s.servos (inst.servoIndex : Int)).Pin with isActive := false } }) } (inst.servoIndex / SERVOS_PER_TIMER) = false
       then s.events ++ [TimerEvent.fin (inst.servoIndex / SERVOS_PER_TIMER)]
       else s.events) := by
  simp only [detach, finISR]
  split_ifs with hb <;> exact ⟨rfl, rfl⟩

/-- C7: attach initializes the owning timer's interrupt exactly when no channel
on that timer was active immediately before the attach (the activity scan runs
before the flag flip, so it observes pre-attach state), and afterwards the
servo's active flag is set; detach clears the servo's active flag and then
disables the timer's interrupt exactly when no channel on that timer remains
active afterwards. -/
theorem attach_detach_timer_lifecycle (s : State) (inst : Instance)
    (hidx : inst.servoIndex < MAX_SERVOS) :
    (∀ pin mn mx : Int,
      ((attach s inst pin mn mx).1.servos (inst.servoIndex : Int)).Pin.isActive = true ∧
      ((∀ ch : Nat, ch < SERVOS_PER_TIMER →
          (s.servos (SERVO_INDEX (inst.servoIndex / SERVOS_PER_TIMER) (ch : Int))).Pin.isActive = false) →
        (attach s inst pin mn mx).1.events
          = s.events ++ [TimerEvent.init (inst.servoIndex / SERVOS_PER_TIMER)]) ∧
      (¬ (∀ ch : Nat, ch < SERVOS_PER_TIMER →
          (s.servos (SERVO_INDEX (inst.servoIndex / SERVOS_PER_TIMER) (ch : Int))).Pin.isActive = false) →
        (attach s inst pin mn mx).1.events = s.events)) ∧
    ((detach s inst).servos (inst.servoIndex : Int)).Pin.isActive = false ∧
    ((∀ ch : Nat, ch < SERVOS_PER_TIMER →
        ((detach s inst).servos (SERVO_INDEX (inst.servoIndex / SERVOS_PER_TIMER) (ch : Int))).Pin.isActive = false) →
      (detach s inst).events = s.events ++ [TimerEvent.fin (inst.servoIndex / SERVOS_PER_TIMER)]) ∧
    (¬ (∀ ch : Nat, ch < SERVOS_PER_TIMER →
        ((detach s inst).servos (SERVO_INDEX (inst.servoIndex / SERVOS_PER_TIMER) (ch : Int))).Pin.isActive = false) →
      (detach s inst).events = s.events) := by
  obtain ⟨hdservos, hdevents⟩ := detach_events_and_servos s inst
  refine ⟨?_, ?_, ?_, ?_⟩
  · intro pin mn mx
    obtain ⟨hflag, hevents⟩ := attach_events_and_flag s inst pin mn mx hidx
    refine ⟨hflag, ?_, ?_⟩
    · intro hall
      rw [hevents, if_pos ((isTimerActive_eq_false_iff s _).mpr hall)]
    · intro hnall
      rw [hevents, if_neg ?_]
      intro hfalse
      exact hnall ((isTimerActive_eq_false_iff s _).mp hfalse)
  · rw [hdservos, upd_self]
  · intro hall
    rw [hdevents, if_pos ?_]
    apply (isTimerActive_eq_false_iff _ _).mpr
    intro ch hch
    have hthis := hall ch hch
    rw [hdservos] at hthis
    exact hthis
  · intro hnall
    rw [hdevents, if_neg ?_]
    intro hfalse
    apply hnall
    intro ch hch
    rw [hdservos]
    exact (isTimerActive_eq_false_iff _ _).mp hfalse ch hch

/-- Witness for C7: attaching servo 0 to the quiescent base state initializes
timer 0 and sets the active flag. -/
theorem attach_detach_witness :
    ((attach baseState baseInst 5 544 2400).1.servos ((baseInst.servoIndex : Nat) : Int)).Pin.isActive = true ∧
    (attach baseState baseInst 5 544 2400).1.events
      = baseState.events ++ [TimerEvent.init (baseInst.servoIndex / SERVOS_PER_TIMER)] := by
  have h := attach_detach_timer_lifecycle baseState baseInst (by decide)
  exact ⟨(h.1 5 544 2400).1, (h.1 5 544 2400).2.1 (fun ch hch => rfl)⟩

/-! ## C5 and C10: sequence playback -/

/-- C5: on the same waypoint array, every call returns the updated waypoint
index; from the stopped sentinel the call changes nothing (the index stays the
sentinel, and no speed-limited write is issued since the state is returned
unchanged); and when the reported position equals the last waypoint's position,
the index transitions to the stopped sentinel without loop and wraps to 0 with
loop. -/
theorem sequencePlay_stop_loop_return (s : State) (inst : Instance) (seqId : Nat)
    (sequenceIn : Nat → servoSequencePoint) (num startPos : Nat)
    (hsame : inst.curSequenceId = seqId) :
    (∀ loop : Bool, (sequencePlay s inst seqId sequenceIn num loop startPos).ret
        = (sequencePlay s inst seqId sequenceIn num loop startPos).inst.curSeqPosition) ∧
    (inst.curSeqPosition = CURRENT_SEQUENCE_STOP →
      ∀ loop : Bool,
        (sequencePlay s inst seqId sequenceIn num loop startPos).ret = CURRENT_SEQUENCE_STOP ∧
        (sequencePlay s inst seqId sequenceIn num loop startPos).inst.curSeqPosition
          = CURRENT_SEQUENCE_STOP ∧
        (sequencePlay s inst seqId sequenceIn num loop startPos).state = s) ∧
    (inst.curSeqPosition + 1 = num → num ≤ 255 →
      read s inst = ((sequenceIn inst.curSeqPosition).position : Int) →
      (sequencePlay s inst seqId sequenceIn num false startPos).inst.curSeqPosition
        = CURRENT_SEQUENCE_STOP ∧
      (sequencePlay s inst seqId sequenceIn num true startPos).inst.curSeqPosition = 0) := by
  have hne : ¬(inst.curSequenceId ≠ seqId) := by simp [hsame]
  refine ⟨?_, ?_, ?_⟩
  · intro loop
    simp only [sequencePlay]
    rw [if_neg hne, if_neg hne]
    split_ifs <;> rfl
  · intro hstop loop
    simp only [sequencePlay]
    rw [if_neg hne, if_neg hne]
    have hcond : ¬ (read s inst = ((sequenceIn inst.curSeqPosition).position : Int) ∧
        inst.curSeqPosition ≠ CURRENT_SEQUENCE_STOP) := by
      intro hc
      exact hc.2 hstop
    rw [if_neg hcond]
    have hguard : ¬ (inst.curSeqPosition ≠ inst.curSeqPosition ∧
        inst.curSeqPosition ≠ CURRENT_SEQUENCE_STOP) := by
      intro hc
      exact hc.1 rfl
    rw [if_neg hguard]
    exact ⟨hstop, hstop, rfl⟩
  · intro hlast hnum hread
    have hne255 : inst.curSeqPosition ≠ CURRENT_SEQUENCE_STOP := by
      unfold CURRENT_SEQUENCE_STOP; omega
    have hcond : read s inst = ((sequenceIn inst.curSeqPosition).position : Int) ∧
        inst.curSeqPosition ≠ CURRENT_SEQUENCE_STOP := ⟨hread, hne255⟩
    have hq : (inst.curSeqPosition + 1) % 256 = num := by
      rw [hlast]; exact Nat.mod_eq_of_lt (by omega)
    constructor
    · simp only [sequencePlay]
      rw [if_neg hne, if_neg hne, if_pos hcond, hq, if_pos (le_refl num)]
      split_ifs <;> first | rfl | simp_all
    · simp only [sequencePlay]
      rw [if_neg hne, if_neg hne, if_pos hcond, hq, if_pos (le_refl num)]
      split_ifs <;> rfl

/-- Witness for C5: servo 0 reporting 45 degrees at the last waypoint of a
two-waypoint sequence stops without loop and wraps to 0 with loop. -/
theorem sequencePlay_stop_loop_witness :
    (sequencePlay { baseState with servos := fun _ => { baseServo with ticks := 251 } }
      { baseInst with curSeqPosition := 1, curSequenceId := 3 } 3 seq0 2 false 0).inst.curSeqPosition
      = CURRENT_SEQUENCE_STOP ∧
    (sequencePlay { baseState with servos := fun _ => { baseServo with ticks := 251 } }
      { baseInst with curSeqPosition := 1, curSequenceId := 3 } 3 seq0 2 true 0).inst.curSeqPosition
      = 0 := by
  have h := sequencePlay_stop_loop_return
    { baseState with servos := fun _ => { baseServo with ticks := 251 } }
    { baseInst with curSeqPosition := 1, curSequenceId := 3 } 3 seq0 2 0 rfl
  exact h.2.2 rfl (by decide) (by decide)

/-- C10 (refuted on the code): called in the stopped state on the same
sequence, sequencePlay evaluates sequenceIn at the current index before
testing the stop sentinel (left-to-right &&), so the two-waypoint array is
read at index 255, which is not below numPositions = 2. -/
theorem sequencePlay_reads_sentinel_index :
    (sequencePlay baseState
      { baseInst with curSeqPosition := CURRENT_SEQUENCE_STOP, curSequenceId := 3 }
      3 seq0 2 false 0).reads = [CURRENT_SEQUENCE_STOP] ∧
    2 ≤ CURRENT_SEQUENCE_STOP := by
  constructor <;> decide

/-! ## C6: write then read roundtrip -/

theorem read_after_write_formula (s : State) (inst : Instance) (a : Int)
    (h0 : 0 ≤ a) (h1 : a ≤ 180)
    (hidx : inst.servoIndex < MAX_SERVOS)
    (hm1 : -128 ≤ inst.min) (hm2 : inst.min ≤ 127)
    (hx1 : -128 ≤ inst.max) (hx2 : inst.max ≤ 127) :
    read (write s inst a) inst
      = Int.tdiv ((4 * ((a * (SERVO_MAX inst - SERVO_MIN inst) / 180 + SERVO_MIN inst - 5) / 4)
            + 6 - SERVO_MIN inst) * 180) (SERVO_MAX inst - SERVO_MIN inst) := by
  have hnb1 : 36 ≤ SERVO_MIN inst := by unfold SERVO_MIN MIN_PULSE_WIDTH; omega
  have hnb2 : SERVO_MIN inst ≤ 1056 := by unfold SERVO_MIN MIN_PULSE_WIDTH; omega
  have hXb1 : 1892 ≤ SERVO_MAX inst := by unfold SERVO_MAX MAX_PULSE_WIDTH; omega
  have hXb2 : SERVO_MAX inst ≤ 2912 := by unfold SERVO_MAX MAX_PULSE_WIDTH; omega
  have hT5 : TRIM_DURATION = (5:Int) := rfl
  have hmapa : map a 0 180 (SERVO_MIN inst) (SERVO_MAX inst)
      = a * (SERVO_MAX inst - SERVO_MIN inst) / 180 + SERVO_MIN inst := by
    unfold map
    rw [sub_zero, sub_zero, Int.tdiv_eq_ediv (mul_nonneg h0 (by omega)) (by norm_num)]
  have hdm := Int.ediv_add_emod (a * (SERVO_MAX inst - SERVO_MIN inst)) 180
  have hr0 := Int.emod_nonneg (a * (SERVO_MAX inst - SERVO_MIN inst)) (by norm_num : (180:Int) ≠ 0)
  have hr1 := Int.emod_lt_of_pos (a * (SERVO_MAX inst - SERVO_MIN inst)) (by norm_num : (0:Int) < 180)
  have haC0 : 0 ≤ a * (SERVO_MAX inst - SERVO_MIN inst) := mul_nonneg h0 (by omega)
  have haC1 : a * (SERVO_MAX inst - SERVO_MIN inst) ≤ 180 * (SERVO_MAX inst - SERVO_MIN inst) := by
    have hC0 : (0:Int) ≤ SERVO_MAX inst - SERVO_MIN inst := by omega
    exact mul_le_mul_of_nonneg_right h1 hC0
  have hq0 : 0 ≤ a * (SERVO_MAX inst - SERVO_MIN inst) / 180 := Int.ediv_nonneg haC0 (by norm_num)
  have hqC : a * (SERVO_MAX inst - SERVO_MIN inst) / 180 ≤ SERVO_MAX inst - SERVO_MIN inst := by
    omega
  have hwrite : write s inst a
      = writeMicroseconds s inst (map a 0 180 (SERVO_MIN inst) (SERVO_MAX inst)) := by
    unfold write
    rw [if_pos (show a < MIN_PULSE_WIDTH by unfold MIN_PULSE_WIDTH; omega),
        if_neg (show ¬ a < 0 by omega), if_neg (show ¬ a > 180 by omega)]
  have hcon : constrain (map a 0 180 (SERVO_MIN inst) (SERVO_MAX inst))
        (SERVO_MIN inst) (SERVO_MAX inst)
      = a * (SERVO_MAX inst - SERVO_MIN inst) / 180 + SERVO_MIN inst := by
    rw [hmapa]
    unfold constrain
    split_ifs <;> omega
  have husT : usToTicks (a * (SERVO_MAX inst - SERVO_MIN inst) / 180 + SERVO_MIN inst - TRIM_DURATION)
      = (a * (SERVO_MAX inst - SERVO_MIN inst) / 180 + SERVO_MIN inst - 5) / 4 := by
    rw [hT5]
    apply usToTicks_nonneg_eq
    omega
  have hrec := writeMicroseconds_servos_self s inst
    (map a 0 180 (SERVO_MIN inst) (SERVO_MAX inst)) hidx
  have hne255 : inst.servoIndex ≠ INVALID_SERVO := by
    unfold MAX_SERVOS SERVOS_PER_TIMER Nbr_16timers at hidx
    unfold INVALID_SERVO
    omega
  have hticks : ((write s inst a).servos ((inst.servoIndex : Nat) : Int)).ticks
      = (a * (SERVO_MAX inst - SERVO_MIN inst) / 180 + SERVO_MIN inst - 5) / 4 := by
    rw [hwrite, hrec]
    show Int.emod (usToTicks (constrain (map a 0 180 (SERVO_MIN inst) (SERVO_MAX inst))
        (SERVO_MIN inst) (SERVO_MAX inst) - TRIM_DURATION)) 65536 = _
    rw [hcon, husT]
    exact Int.emod_eq_of_lt (by omega) (by omega)
  have hrus : readMicroseconds (write s inst a) inst
      = 4 * ((a * (SERVO_MAX inst - SERVO_MIN inst) / 180 + SERVO_MIN inst - 5) / 4) + 5 := by
    unfold readMicroseconds
    rw [if_pos hne255, hticks]
    unfold ticksToUs
    rw [show Int.tdiv clockCyclesPerMicrosecond 4 = 4 from by decide]
    rw [show Int.emod ((a * (SERVO_MAX inst - SERVO_MIN inst) / 180 + SERVO_MIN inst - 5) / 4) 65536
        = (a * (SERVO_MAX inst - SERVO_MIN inst) / 180 + SERVO_MIN inst - 5) / 4 from
        Int.emod_eq_of_lt (by omega) (by omega)]
    rw [show Int.emod ((a * (SERVO_MAX inst - SERVO_MIN inst) / 180 + SERVO_MIN inst - 5) / 4 * 16) 65536
        = (a * (SERVO_MAX inst - SERVO_MIN inst) / 180 + SERVO_MIN inst - 5) / 4 * 16 from
        Int.emod_eq_of_lt (by omega) (by omega)]
    rw [Int.tdiv_eq_ediv (show (0:Int) ≤ (a * (SERVO_MAX inst - SERVO_MIN inst) / 180 + SERVO_MIN inst - 5) / 4 * 16 by omega) (by norm_num)]
    rw [show (a * (SERVO_MAX inst - SERVO_MIN inst) / 180 + SERVO_MIN inst - 5) / 4 * 16
        = 4 * (4 * ((a * (SERVO_MAX inst - SERVO_MIN inst) / 180 + SERVO_MIN inst - 5) / 4)) from by ring]
    rw [Int.mul_ediv_cancel_left _ (by norm_num : (4:Int) ≠ 0)]
    exact Int.emod_eq_of_lt (by omega) (by omega)
  unfold read
  rw [hrus]
  unfold map
  rw [show ((180:Int) - 0) = 180 from by norm_num]
  rw [show 4 * ((a * (SERVO_MAX inst - SERVO_MIN inst) / 180 + SERVO_MIN inst - 5) / 4) + 5 + 1
        - SERVO_MIN inst
      = 4 * ((a * (SERVO_MAX inst - SERVO_MIN inst) / 180 + SERVO_MIN inst - 5) / 4) + 6
        - SERVO_MIN inst from by ring]
  rw [add_zero]

theorem roundtrip_arith (n X a : Int)
    (h0 : 0 ≤ a) (h1 : a ≤ 180)
    (hn1 : 36 ≤ n) (hn2 : n ≤ 1056) (hX1 : 1892 ≤ X) (hX2 : X ≤ 2912) :
    (Int.tdiv ((4 * ((a * (X - n) / 180 + n - 5) / 4) + 6 - n) * 180) (X - n) - a).natAbs ≤ 1 := by
  have hCpos : (0:Int) < X - n := by omega
  have hdm := Int.ediv_add_emod (a * (X - n)) 180
  have hr0 := Int.emod_nonneg (a * (X - n)) (by norm_num : (180:Int) ≠ 0)
  have hr1 := Int.emod_lt_of_pos (a * (X - n)) (by norm_num : (0:Int) < 180)
  have haC1 : a * (X - n) ≤ 180 * (X - n) := by
    have hC0 : (0:Int) ≤ X - n := by omega
    exact mul_le_mul_of_nonneg_right h1 hC0
  have hy := Int.ediv_add_emod (a * (X - n) / 180 + n - 5) 4
  have hy0 := Int.emod_nonneg (a * (X - n) / 180 + n - 5) (by norm_num : (4:Int) ≠ 0)
  have hy1 := Int.emod_lt_of_pos (a * (X - n) / 180 + n - 5) (by norm_num : (0:Int) < 4)
  by_cases ha : a = 0
  · subst ha
    have hq : (0:Int) * (X - n) / 180 = 0 := by norm_num
    rw [hq] at hy hy0 hy1 ⊢
    have hrr : (0 + n - 5) % 4 = 0 ∨ (0 + n - 5) % 4 = 1 ∨
        (0 + n - 5) % 4 = 2 ∨ (0 + n - 5) % 4 = 3 := by omega
    rcases hrr with hr | hr | hr | hr
    · rw [show (4 * ((0 + n - 5) / 4) + 6 - n) * 180 = 180 from by omega]
      rw [Int.tdiv_eq_ediv (by norm_num) (by omega)]
      rw [Int.ediv_eq_zero_of_lt (by norm_num) (by omega)]
      norm_num
    · rw [show (4 * ((0 + n - 5) / 4) + 6 - n) * 180 = 0 from by omega]
      rw [Int.zero_tdiv]
      norm_num
    · rw [show (4 * ((0 + n - 5) / 4) + 6 - n) * 180 = -180 from by omega]
      rw [show (-180 : Int) = -(180 : Int) from by norm_num, Int.neg_tdiv]
      rw [Int.tdiv_eq_ediv (by norm_num) (by omega)]
      rw [Int.ediv_eq_zero_of_lt (by norm_num) (by omega)]
      norm_num
    · rw [show (4 * ((0 + n - 5) / 4) + 6 - n) * 180 = -360 from by omega]
      rw [show (-360 : Int) = -(360 : Int) from by norm_num, Int.neg_tdiv]
      rw [Int.tdiv_eq_ediv (by norm_num) (by omega)]
      rw [Int.ediv_eq_zero_of_lt (by norm_num) (by omega)]
      norm_num
  · have ha1 : (1:Int) ≤ a := by omega
    have hCle : X - n ≤ a * (X - n) := le_mul_of_one_le_left (by omega) ha1
    have hz0 : 0 < (4 * ((a * (X - n) / 180 + n - 5) / 4) + 6 - n) * 180 := by omega
    rw [Int.tdiv_eq_ediv (by omega) (by omega)]
    have hlow : a - 1 ≤ ((4 * ((a * (X - n) / 180 + n - 5) / 4) + 6 - n) * 180) / (X - n) := by
      rw [Int.le_ediv_iff_mul_le hCpos]
      rw [show (a - 1) * (X - n) = a * (X - n) - (X - n) from by ring]
      omega
    have hhigh : ((4 * ((a * (X - n) / 180 + n - 5) / 4) + 6 - n) * 180) / (X - n) < a + 1 := by
      rw [Int.ediv_lt_iff_lt_mul hCpos]
      rw [show (a + 1) * (X - n) = a * (X - n) + (X - n) from by ring]
      omega
    omega

/-- C6: for every attached servo with int8-range calibration trims and every
angle a in [0,180], read() after write(a) returns a up to the integer rounding
introduced by the degrees-to-microseconds-to-ticks mapping and its inverse:
the reported angle differs from a by at most 1. -/
theorem write_read_roundtrip (s : State) (inst : Instance) (a : Int)
    (h0 : 0 ≤ a) (h1 : a ≤ 180)
    (hidx : inst.servoIndex < MAX_SERVOS)
    (hm1 : -128 ≤ inst.min) (hm2 : inst.min ≤ 127)
    (hx1 : -128 ≤ inst.max) (hx2 : inst.max ≤ 127) :
    (read (write s inst a) inst - a).natAbs ≤ 1 := by
  rw [read_after_write_formula s inst a h0 h1 hidx hm1 hm2 hx1 hx2]
  exact roundtrip_arith (SERVO_MIN inst) (SERVO_MAX inst) a h0 h1
    (by unfold SERVO_MIN MIN_PULSE_WIDTH; omega) (by unfold SERVO_MIN MIN_PULSE_WIDTH; omega)
    (by unfold SERVO_MAX MAX_PULSE_WIDTH; omega) (by unfold SERVO_MAX MAX_PULSE_WIDTH; omega)

/-- Witness for C6 at servo 0, default calibration, angle 90 (the reported
angle is 89 there, within the rounding tolerance). -/
theorem write_read_roundtrip_witness :
    (read (write baseState baseInst 90) baseInst - 90).natAbs ≤ 1 :=
  write_read_roundtrip baseState baseInst 90 (by decide) (by decide) (by decide)
    (by decide) (by decide) (by decide) (by decide)

end VarSpeedServoModel
